import Mathlib

/-!
Verification development for the classroom real-time hub backend
(`lecture` Django app): question lifecycle views, feedback rate limiting,
like idempotency, the Celery enrichment task, and the WebSocket session
consumer.  Each Python view/task is shallowly embedded as a pure Lean
function over explicit state; side effects (database writes, channel-layer
group sends, job enqueues) are recorded in an effect trace.
-/

namespace Lecture

/-- Timestamps: seconds as rationals (Python datetime differences yield
fractional seconds via `total_seconds()`). -/
abbrev Time := ℚ

/-- Python `str.strip()`: drop leading and trailing whitespace. -/
def pyStrip (s : String) : String :=
  String.mk (((s.data.dropWhile Char.isWhitespace).reverse.dropWhile
    Char.isWhitespace).reverse)

/-- Truthiness of an optional string in Python: `None` and `""` are falsy. -/
def optStrFalsy : Option String → Bool
  | none => true
  | some s => s == ""

/-- Embeds `get_device_hash` (views.py): the `X-Device-Hash` header, with any
missing or empty value replaced by the literal `"anonymous"`. -/
def get_device_hash (header : Option String) : String :=
  match header with
  | none => "anonymous"
  | some h => if h == "" then "anonymous" else h

/-- Embeds `get_session_group_name` (views.py): channel-layer group name for a
session/role pair. -/
def get_session_group_name (session_id : String) (role : String) : String :=
  "session_" ++ session_id ++ "_" ++ role

/-- Model of `Question.Status` (models.py): lifecycle states in declaration order. -/
inductive QuestionStatus
  | INTENT
  | TEXT_SUBMITTED
  | AI_ANSWERED
  | FORWARDED
deriving DecidableEq, Repr

/-- Position of a status in the forward lifecycle order
`INTENT → TEXT_SUBMITTED → AI_ANSWERED → FORWARDED`. -/
def statusRank : QuestionStatus → Nat
  | .INTENT => 0
  | .TEXT_SUBMITTED => 1
  | .AI_ANSWERED => 2
  | .FORWARDED => 3

/-- Model of a `Question` row (models.py). -/
structure Question where
  id : Nat
  session_id : String
  device_hash : String
  original_text : String
  cleaned_text : String
  ai_answer : String
  forwarded_to_professor : Bool
  status : QuestionStatus
  created_at : Time
  updated_at : Time
deriving DecidableEq, Repr

/-- Model of a `FeedbackEvent` row (models.py). -/
structure FeedbackEvent where
  session_id : String
  device_hash : String
  feedback_type : String
  created_at : Time
deriving DecidableEq, Repr

/-- Model of an `ImportantMoment` row (models.py); `screenshot_image` is the stored
file reference (`none` when no file). -/
structure ImportantMoment where
  session_id : String
  trigger : String
  note : String
  screenshot_image : Option String
  created_at : Time
deriving DecidableEq, Repr

/-- WebSocket payloads handed to `channel_layer.group_send` by the views,
one constructor per consumer handler `type`. -/
inductive WsPayload
  | feedback_message (feedback_type : String) (created_at : Time)
  | question_intent (question_id : Nat) (created_at : Time)
  | new_question (question_id : Nat) (cleaned_text : String)
      (capture_url : Option String) (created_at : Time)
  | question_like_update (question_id : Nat) (like_count : Nat)
  | important_message (note : String) (capture_url : Option String)
      (created_at : Time)
  | hard_alert (capture_url : Option String) (created_at : Time)
deriving DecidableEq, Repr

/-- One observable side effect of a request handler, in program order. -/
inductive Effect
  | persist (what : String)
  | broadcast (group : String) (payload : WsPayload)
  | enqueue (task : String)
deriving DecidableEq, Repr

/-- Whether an effect is a channel-layer broadcast. -/
def Effect.isBroadcast : Effect → Bool
  | .broadcast _ _ => true
  | _ => false

/-- Every broadcast in the trace is preceded by some persistence write:
scan left to right remembering whether a persist has been seen. -/
def persistSeenBefore : List Effect → Bool → Bool
  | [], _ => true
  | .persist _ :: rest, _ => persistSeenBefore rest true
  | .broadcast _ _ :: rest, seen => seen && persistSeenBefore rest seen
  | .enqueue _ :: rest, seen => persistSeenBefore rest seen

/-- A trace is write-before-broadcast if no broadcast occurs before the
first persistence write. -/
def writesBeforeBroadcasts (trace : List Effect) : Bool :=
  persistSeenBefore trace false

/-- HTTP-level outcome of a handler. -/
inductive ApiResult
  | ok
  | badRequest
  | forbidden
  | rateLimited
deriving DecidableEq, Repr

/-- Outcome of one call into an external AI collaborator: `Except.ok`
is a returned string, `Except.error` is any raised exception/timeout. -/
abbrev LlmOutcome := Except Unit String

/-- Embeds `ai_clean_question` (views.py): calls the cleaning collaborator and, on
any exception, falls back to the stripped original text. -/
def ai_clean_question (original_text : String) (llm : LlmOutcome) : String :=
  match llm with
  | .ok cleaned => cleaned
  | .error _ => pyStrip original_text

/-- The fixed generic apology answer returned when the answering
collaborator fails (views.py, `ai_answer_question`). -/
def aiAnswerFallbackMessage : String :=
  "AI 조교가 현재 답변을 생성할 수 없습니다. 잠시 후 다시 시도해 주세요."

/-- Embeds `ai_answer_question` (views.py): calls the answering collaborator and,
on any exception, falls back to a fixed generic apology message. -/
def ai_answer_question ( _cleaned_text : String) (llm : LlmOutcome) : String :=
  match llm with
  | .ok answer => answer
  | .error _ => aiAnswerFallbackMessage

/-- Embeds `_ai_summarize_important_image_for_task` (tasks.py): skip when there is
no image path, return `none` on any exception, strip the result and map an
empty result to `none`. -/
def ai_summarize_important_image_for_task
    (image_path : Option String) (llm : LlmOutcome) : Option String :=
  if optStrFalsy image_path then none
  else
    match llm with
    | .ok summary =>
        let s := pyStrip summary
        if s == "" then none else some s
    | .error _ => none

/-- Embeds `submit_question_text` (views.py): reject empty text, then reject a
device mismatch, then store the original text, the cleaned text produced
by `ai_clean_question`, and status `TEXT_SUBMITTED`. -/
def submit_question_text (question : Question) (device_hash : String)
    (original_text : Option String) (llmClean : LlmOutcome) :
    Question × ApiResult :=
  if optStrFalsy original_text then (question, .badRequest)
  else if question.device_hash != device_hash then (question, .forbidden)
  else
    let text := original_text.getD ""
    let cleaned := ai_clean_question text llmClean
    ({ question with
        original_text := text
        cleaned_text := cleaned
        status := .TEXT_SUBMITTED }, .ok)

/-- The `cleaned_for_answer` selection shared verbatim by
`request_ai_answer` and `forward_question_to_professor` (views.py):
a truthy override (stripped), else the stored cleaned text if non-empty,
else the original text. -/
def cleaned_for_answer_of (question : Question)
    (override_cleaned : Option String) : String :=
  if !optStrFalsy override_cleaned then pyStrip (override_cleaned.getD "")
  else if question.cleaned_text != "" then question.cleaned_text
  else question.original_text

/-- Embeds `request_ai_answer` (views.py): reject a device mismatch, pick the
text to answer, call `ai_answer_question`, and store cleaned text, answer
and status `AI_ANSWERED`. -/
def request_ai_answer (question : Question) (device_hash : String)
    (override_cleaned : Option String) (llmAnswer : LlmOutcome) :
    Question × ApiResult :=
  if question.device_hash != device_hash then (question, .forbidden)
  else
    let cleaned_for_answer := cleaned_for_answer_of question override_cleaned
    let answer := ai_answer_question cleaned_for_answer llmAnswer
    ({ question with
        cleaned_text := cleaned_for_answer
        ai_answer := answer
        status := .AI_ANSWERED }, .ok)

/-- Embeds `forward_question_to_professor` (views.py): no device check; pick the
text to forward, update the stored cleaned text only when an override is
given, set the forwarded flag and status `FORWARDED`, save (bumping
`updated_at`), then broadcast a `new_question` payload to the teacher and
student groups.  The request's device hash is received but never read. -/
def forward_question_to_professor (question : Question)
    ( _device_hash : String) (override_cleaned : Option String)
    (capture_url : Option String) (now : Time) :
    Question × List Effect × ApiResult :=
  let cleaned_for_answer := cleaned_for_answer_of question override_cleaned
  let q1 :=
    if !optStrFalsy override_cleaned then
      { question with cleaned_text := cleaned_for_answer }
    else question
  let q2 := { q1 with
      forwarded_to_professor := true
      status := .FORWARDED
      updated_at := now }
  let payload := WsPayload.new_question question.id cleaned_for_answer
      capture_url now
  (q2,
   [Effect.persist "question",
    Effect.broadcast (get_session_group_name question.session_id "teacher")
      payload,
    Effect.broadcast (get_session_group_name question.session_id "student")
      payload],
   .ok)

/-- Like rows: `(question_id, device_hash)` pairs (`QuestionLike`,
unique together). -/
abbrev LikeRows := List (Nat × String)

/-- Embeds `question.likes.count()` (views.py): number of stored likes for a question. -/
def countLikes (likes : LikeRows) (question_id : Nat) : Nat :=
  (likes.filter (fun p => p.1 == question_id)).length

/-- Number of stored like rows for one `(question, device)` pair. -/
def countLikeRows (likes : LikeRows) (question_id : Nat)
    (device_hash : String) : Nat :=
  (likes.filter (fun p => p == (question_id, device_hash))).length

/-- Embeds `like_question` (views.py): `get_or_create` on the
`(question, device)` pair; only a newly created row triggers the
`question_like_update` broadcast (with the fresh count) to the teacher and
student groups. -/
def like_question (likes : LikeRows) (session_id : String)
    (question_id : Nat) (device_hash : String) : LikeRows × List Effect :=
  if likes.contains (question_id, device_hash) then (likes, [])
  else
    let likes1 := likes ++ [(question_id, device_hash)]
    let like_count := countLikes likes1 question_id
    let payload := WsPayload.question_like_update question_id like_count
    (likes1,
     [Effect.persist "question_like",
      Effect.broadcast (get_session_group_name session_id "teacher") payload,
      Effect.broadcast (get_session_group_name session_id "student") payload])

/-- Embeds `FeedbackEvent.objects.filter(session, device_hash)
.order_by("-created_at").first()`: the stored feedback event of this
session/device with the greatest `created_at` (first match wins ties). -/
def latestFeedback : List FeedbackEvent → String → String →
    Option FeedbackEvent
  | [], _, _ => none
  | e :: rest, session_id, device_hash =>
    match latestFeedback rest session_id device_hash with
    | none =>
        if e.session_id == session_id && e.device_hash == device_hash then
          some e
        else none
    | some b =>
        if e.session_id == session_id && e.device_hash == device_hash then
          if b.created_at > e.created_at then some b else some e
        else some b

/-- Embeds `submit_feedback` (views.py): validate the feedback type, rate-limit
against the most recent prior event of the same session/device (reject
when strictly under 3 seconds), then persist the event and broadcast
`feedback_message` to the teacher group only. -/
def submit_feedback (events : List FeedbackEvent)
    (session_id device_hash : String) (feedback_type : String)
    (now : Time) : List FeedbackEvent × List Effect × ApiResult :=
  if feedback_type != "OK" && feedback_type != "HARD" then
    (events, [], .badRequest)
  else
    let event : FeedbackEvent :=
      { session_id := session_id
        device_hash := device_hash
        feedback_type := feedback_type
        created_at := now }
    let accepted :=
      (events ++ [event],
       [Effect.persist "feedback_event",
        Effect.broadcast (get_session_group_name session_id "teacher")
          (.feedback_message feedback_type now)],
       ApiResult.ok)
    match latestFeedback events session_id device_hash with
    | some last =>
        if now - last.created_at < 3 then (events, [], .rateLimited)
        else accepted
    | none => accepted

/-- Embeds `start_question_intent` (views.py): create the placeholder question
(empty text, status `INTENT`), then broadcast `question_intent` to the
teacher group. -/
def start_question_intent (session_id : String) (device_hash : String)
    (new_id : Nat) (now : Time) : Question × List Effect :=
  let question : Question :=
    { id := new_id
      session_id := session_id
      device_hash := device_hash
      original_text := ""
      cleaned_text := ""
      ai_answer := ""
      forwarded_to_professor := false
      status := .INTENT
      created_at := now
      updated_at := now }
  (question,
   [Effect.persist "question",
    Effect.broadcast (get_session_group_name session_id "teacher")
      (.question_intent new_id now)])

/-- Embeds `mark_important` (views.py): create the `MANUAL` moment (raw note,
optional screenshot), broadcast `important_message` to the student group,
then enqueue the enrichment task. -/
def mark_important (session_id : String) (note : Option String)
    (screenshot : Option String) (now : Time) :
    ImportantMoment × List Effect :=
  let raw_note := note.getD ""
  let moment : ImportantMoment :=
    { session_id := session_id
      trigger := "MANUAL"
      note := raw_note
      screenshot_image := screenshot
      created_at := now }
  let capture_url := if screenshot.isSome then screenshot else none
  (moment,
   [Effect.persist "important_moment",
    Effect.broadcast (get_session_group_name session_id "student")
      (.important_message raw_note capture_url now),
    Effect.enqueue "generate_important_summary_task"])

/-- Embeds `hard_threshold_capture` (views.py): reject a missing screenshot, else
create the `HARD` moment and broadcast `hard_alert` to the student group
then the teacher group. -/
def hard_threshold_capture (session_id : String)
    (screenshot : Option String) (now : Time) :
    Option ImportantMoment × List Effect × ApiResult :=
  match screenshot with
  | none => (none, [], .badRequest)
  | some shot =>
    let moment : ImportantMoment :=
      { session_id := session_id
        trigger := "HARD"
        note := ""
        screenshot_image := some shot
        created_at := now }
    let payload := WsPayload.hard_alert (some shot) now
    (some moment,
     [Effect.persist "important_moment",
      Effect.broadcast (get_session_group_name session_id "student") payload,
      Effect.broadcast (get_session_group_name session_id "teacher") payload],
     .ok)

/-- The `auto_summary` step of `generate_important_summary_task`
(tasks.py): only a moment with a screenshot is summarized. -/
def task_auto_summary (moment : ImportantMoment) (llm : LlmOutcome) :
    Option String :=
  if moment.screenshot_image.isSome then
    ai_summarize_important_image_for_task moment.screenshot_image llm
  else none

/-- The `final_note_local` combination step of
`generate_important_summary_task` (tasks.py): join raw note and summary
when both are truthy, summary alone when only it is, else the raw note. -/
def task_final_note (moment : ImportantMoment) (raw_note : String)
    (llm : LlmOutcome) : String :=
  let auto_summary := task_auto_summary moment llm
  if raw_note != "" && auto_summary.isSome then
    raw_note ++ " | " ++ auto_summary.getD ""
  else if auto_summary.isSome then auto_summary.getD ""
  else raw_note

/-- Embeds `generate_important_summary_task` (tasks.py): summarize the moment's
image (if any), combine with the raw note captured at creation time, and
persist the combined note only when it differs from the stored note.  The
task never broadcasts. -/
def generate_important_summary_task (moment : ImportantMoment)
    (raw_note : String) (llm : LlmOutcome) : ImportantMoment × List Effect :=
  let final_note_local := task_final_note moment raw_note llm
  if final_note_local != moment.note then
    ({ moment with note := final_note_local },
     [Effect.persist "important_moment_note"])
  else (moment, [])

/-- Spec-side combined-note rule: both non-empty joined by a separator,
summary alone when the raw note is empty, raw note when there is no
summary. -/
def final_note_spec (raw_note : String) (summary : Option String) : String :=
  match summary with
  | some s => if raw_note = "" then s else raw_note ++ " | " ++ s
  | none => raw_note

/-- Hub-side state visible to `SessionConsumer` (consumer.py): the
channel-layer group registry (group name, channel name) and the Redis
presence sets (key, member), shared across processes. -/
structure HubState where
  groups : List (String × String)
  presence : List (String × String)
deriving DecidableEq, Repr

/-- Redis key `session:<session_id>:teachers` used by the presence
utilities in consumer.py. -/
def teacherPresenceKey (session_id : String) : String :=
  "session:" ++ session_id ++ ":teachers"

/-- Redis `SADD`: add a member to a set (no duplicates). -/
def sadd (s : List (String × String)) (key member : String) :
    List (String × String) :=
  if s.contains (key, member) then s else s ++ [(key, member)]

/-- Redis `SCARD`: cardinality of a set. -/
def scard (s : List (String × String)) (key : String) : Nat :=
  (s.filter (fun p => p.1 == key)).length

/-- Embeds `SessionConsumer._is_teacher_online` (consumer.py): `false` when the
Redis client is unavailable, else whether the session's teacher set is
non-empty. -/
def is_teacher_online (st : HubState) (redis_ok : Bool)
    (session_id : String) : Bool :=
  if !redis_ok then false
  else scard st.presence (teacherPresenceKey session_id) > 0

/-- Messages sent during `SessionConsumer.connect`: the
`teacher_presence` group send to the student group, and the initial
`connected` snapshot sent to the attaching client itself. -/
inductive ConnEffect
  | presenceBroadcast (group : String) (is_online : Bool) (changed_at : Time)
  | connectedSnapshot (session_id : String) (role : String)
      (teacher_online : Bool)
deriving DecidableEq, Repr

/-- Embeds `SessionConsumer.connect` (consumer.py): join the `(session, role)`
group; a teacher is added to the Redis presence set and a
`teacher_presence` broadcast goes to the student group; the snapshot's
`teacher_online` field is computed via `_is_teacher_online` only for a
student, and starts as `False` otherwise. -/
def consumer_connect (st : HubState) (redis_ok : Bool)
    (session_id role channel_name : String) (now : Time) :
    HubState × List ConnEffect :=
  let group_name := "session_" ++ session_id ++ "_" ++ role
  let st1 : HubState :=
    { st with groups := st.groups ++ [(group_name, channel_name)] }
  let st2 : HubState :=
    if role == "teacher" && redis_ok then
      { st1 with
          presence := sadd st1.presence (teacherPresenceKey session_id)
            channel_name }
    else st1
  let presenceEffects : List ConnEffect :=
    if role == "teacher" then
      [ConnEffect.presenceBroadcast
        ("session_" ++ session_id ++ "_student")
        (is_teacher_online st2 redis_ok session_id) now]
    else []
  let teacher_online :=
    if role == "student" then is_teacher_online st2 redis_ok session_id
    else false
  (st2,
   presenceEffects ++
     [ConnEffect.connectedSnapshot session_id role teacher_online])

/-! ### Helper lemmas -/

theorem latestFeedback_some (sid d : String) :
    ∀ (events : List FeedbackEvent) (last : FeedbackEvent),
      latestFeedback events sid d = some last →
      last ∈ events ∧ last.session_id = sid ∧ last.device_hash = d := by
  intro events
  induction events with
  | nil => intro last h; simp [latestFeedback] at h
  | cons e rest ih =>
    intro last h
    rw [latestFeedback] at h
    rcases hr : latestFeedback rest sid d with _ | b <;>
      rw [hr] at h <;> dsimp only at h
    · by_cases hc : (e.session_id == sid && e.device_hash == d) = true
      · rw [if_pos hc] at h
        obtain rfl : e = last := by simpa using h
        simp only [Bool.and_eq_true, beq_iff_eq] at hc
        exact ⟨List.mem_cons_self _ _, hc.1, hc.2⟩
      · rw [if_neg hc] at h
        exact absurd h (by simp)
    · by_cases hc : (e.session_id == sid && e.device_hash == d) = true
      · rw [if_pos hc] at h
        by_cases hgt : b.created_at > e.created_at
        · rw [if_pos hgt] at h
          obtain rfl : b = last := by simpa using h
          obtain ⟨hm, hs, hd⟩ := ih b hr
          exact ⟨List.mem_cons_of_mem _ hm, hs, hd⟩
        · rw [if_neg hgt] at h
          obtain rfl : e = last := by simpa using h
          simp only [Bool.and_eq_true, beq_iff_eq] at hc
          exact ⟨List.mem_cons_self _ _, hc.1, hc.2⟩
      · rw [if_neg hc] at h
        obtain rfl : b = last := by simpa using h
        obtain ⟨hm, hs, hd⟩ := ih b hr
        exact ⟨List.mem_cons_of_mem _ hm, hs, hd⟩

theorem latestFeedback_ge (sid d : String) :
    ∀ (events : List FeedbackEvent) (x : FeedbackEvent),
      x ∈ events → x.session_id = sid → x.device_hash = d →
      ∃ last, latestFeedback events sid d = some last ∧
        x.created_at ≤ last.created_at := by
  intro events
  induction events with
  | nil => intro x hmem; cases hmem
  | cons e rest ih =>
    intro x hmem hs hd
    rw [latestFeedback]
    rcases List.mem_cons.mp hmem with rfl | hmem
    · have hc : (x.session_id == sid && x.device_hash == d) = true := by
        simp [hs, hd]
      rcases hr : latestFeedback rest sid d with _ | b
      · exact ⟨x, by simp [hc], le_refl _⟩
      · by_cases hgt : b.created_at > x.created_at
        · exact ⟨b, by simp [hc, hgt], le_of_lt hgt⟩
        · exact ⟨x, by simp [hc, hgt], le_refl _⟩
    · obtain ⟨last, hlast, hle⟩ := ih x hmem hs hd
      rw [hlast]
      by_cases hc : (e.session_id == sid && e.device_hash == d) = true
      · by_cases hgt : last.created_at > e.created_at
        · exact ⟨last, by simp [hc, hgt], hle⟩
        · exact ⟨e, by simp [hc, hgt], le_trans hle (not_lt.mp hgt)⟩
      · exact ⟨last, by simp [hc], hle⟩

theorem submit_feedback_ok_state (events : List FeedbackEvent)
    (sid d ft : String) (now : Time)
    (h : (submit_feedback events sid d ft now).2.2 = .ok) :
    (submit_feedback events sid d ft now).1 =
      events ++ [⟨sid, d, ft, now⟩] := by
  by_cases hft : (ft != "OK" && ft != "HARD") = true
  · exfalso
    simp [submit_feedback, hft] at h
  · rcases hmatch : latestFeedback events sid d with _ | last
    · simp [submit_feedback, hft, hmatch]
    · by_cases hlt : now - last.created_at < 3
      · exfalso
        simp [submit_feedback, hft, hmatch, hlt] at h
      · simp [submit_feedback, hft, hmatch, hlt]

/-! ### Claim theorems -/

/-- C2: each of the six persist-and-broadcast handlers (feedback
submission, question intent creation, forward, like, mark-important,
hard-threshold capture) emits its persistence write strictly before any
group broadcast in its effect trace. -/
theorem C2_write_before_broadcast :
    (∀ (events : List FeedbackEvent) (sid d ft : String) (now : Time),
      writesBeforeBroadcasts (submit_feedback events sid d ft now).2.1
        = true)
    ∧ (∀ (sid d : String) (new_id : Nat) (now : Time),
        writesBeforeBroadcasts (start_question_intent sid d new_id now).2
          = true)
    ∧ (∀ (q : Question) (dev : String) (o cap : Option String) (now : Time),
        writesBeforeBroadcasts
          (forward_question_to_professor q dev o cap now).2.1 = true)
    ∧ (∀ (likes : LikeRows) (sid : String) (qid : Nat) (d : String),
        writesBeforeBroadcasts (like_question likes sid qid d).2 = true)
    ∧ (∀ (sid : String) (note shot : Option String) (now : Time),
        writesBeforeBroadcasts (mark_important sid note shot now).2 = true)
    ∧ (∀ (sid : String) (shot : Option String) (now : Time),
        writesBeforeBroadcasts (hard_threshold_capture sid shot now).2.1
          = true) := by
  refine ⟨?_, ?_, ?_, ?_, ?_, ?_⟩
  · intro events sid d ft now
    unfold submit_feedback
    split
    · rfl
    · dsimp only
      split
      · split <;> rfl
      · rfl
  · intro sid d new_id now; rfl
  · intro q dev o cap now; rfl
  · intro likes sid qid d
    unfold like_question
    split <;> rfl
  · intro sid note shot now; rfl
  · intro sid shot now
    unfold hard_threshold_capture
    split <;> rfl

/-- C3: liking is idempotent per (question, device): a first like appends
exactly one row and broadcasts `question_like_update` with the fresh
count to the teacher and student groups; a repeat like leaves the rows
unchanged and broadcasts nothing. -/
theorem C3_like_idempotent :
    ∀ (likes : LikeRows) (sid : String) (qid : Nat) (d : String),
      ((qid, d) ∉ likes →
        like_question likes sid qid d =
          (likes ++ [(qid, d)],
           [Effect.persist "question_like",
            Effect.broadcast (get_session_group_name sid "teacher")
              (.question_like_update qid
                (countLikes (likes ++ [(qid, d)]) qid)),
            Effect.broadcast (get_session_group_name sid "student")
              (.question_like_update qid
                (countLikes (likes ++ [(qid, d)]) qid))])
        ∧ countLikeRows (like_question likes sid qid d).1 qid d = 1)
      ∧ ((qid, d) ∈ likes → like_question likes sid qid d = (likes, [])) := by
  intro likes sid qid d
  constructor
  · intro hnot
    constructor
    · simp [like_question, hnot]
    · have hzero : countLikeRows likes qid d = 0 := by
        unfold countLikeRows
        have hall : ∀ a ∈ likes, ¬ (a == (qid, d)) = true := by
          intro a ha hab
          exact hnot ((beq_iff_eq.mp hab) ▸ ha)
        rw [List.filter_eq_nil_iff.mpr hall]
        rfl
      have h1 : (like_question likes sid qid d).1 = likes ++ [(qid, d)] := by
        simp [like_question, hnot]
      rw [h1]
      unfold countLikeRows at hzero ⊢
      rw [List.filter_append, List.length_append, hzero]
      simp
  · intro hmem
    simp [like_question, hmem]

/-- Witness for C3 at concrete inputs: first like from an empty table
leaves exactly one row; a repeat like is a silent no-op. -/
theorem C3_like_idempotent_witness :
    countLikeRows (like_question [] "s" 1 "d").1 1 "d" = 1
    ∧ like_question [(1, "d")] "s" 1 "d" = ([(1, "d")], []) :=
  ⟨((C3_like_idempotent [] "s" 1 "d").1 (by decide)).2,
   (C3_like_idempotent [(1, "d")] "s" 1 "d").2 (by decide)⟩

/-- C4: feedback is rate-limited per (session, device): with a valid
feedback type, a submission strictly under 3 seconds after the most
recent prior event of the same session and device is rejected as
`RateLimited` with no write and no broadcast; at a gap of at least 3
seconds, or with no prior event, the event is persisted and then
broadcast to the teacher group only; and the compared event is indeed
the most recent matching prior event. -/
theorem C4_feedback_rate_limited :
    ∀ (events : List FeedbackEvent) (sid d ft : String) (now : Time),
      (ft = "OK" ∨ ft = "HARD") →
      ((∀ last, latestFeedback events sid d = some last →
          now - last.created_at < 3 →
          submit_feedback events sid d ft now = (events, [], .rateLimited))
       ∧ (∀ last, latestFeedback events sid d = some last →
            3 ≤ now - last.created_at →
            submit_feedback events sid d ft now =
              (events ++ [⟨sid, d, ft, now⟩],
               [Effect.persist "feedback_event",
                Effect.broadcast (get_session_group_name sid "teacher")
                  (.feedback_message ft now)],
               .ok))
       ∧ (latestFeedback events sid d = none →
            submit_feedback events sid d ft now =
              (events ++ [⟨sid, d, ft, now⟩],
               [Effect.persist "feedback_event",
                Effect.broadcast (get_session_group_name sid "teacher")
                  (.feedback_message ft now)],
               .ok))
       ∧ (∀ last, latestFeedback events sid d = some last →
            last ∈ events ∧ last.session_id = sid ∧ last.device_hash = d ∧
            ∀ x ∈ events, x.session_id = sid → x.device_hash = d →
              x.created_at ≤ last.created_at)) := by
  intro events sid d ft now hft
  have hftb : (ft != "OK" && ft != "HARD") = false := by
    rcases hft with rfl | rfl <;> rfl
  refine ⟨?_, ?_, ?_, ?_⟩
  · intro last hlast hlt
    simp [submit_feedback, hftb, hlast, hlt]
  · intro last hlast hge
    simp [submit_feedback, hftb, hlast, not_lt.mpr hge]
  · intro hnone
    simp [submit_feedback, hftb, hnone]
  · intro last hlast
    obtain ⟨hm, hs, hd⟩ := latestFeedback_some sid d events last hlast
    refine ⟨hm, hs, hd, ?_⟩
    intro x hx hxs hxd
    obtain ⟨last2, hlast2, hle⟩ := latestFeedback_ge sid d events x hx hxs hxd
    rw [hlast2] at hlast
    obtain rfl := Option.some.inj hlast
    exact hle

/-- Witness for C4: a second submission 2 seconds after the first is
rejected; 5 seconds after, it is accepted and broadcast to the teacher
group. -/
theorem C4_feedback_rate_limited_witness :
    submit_feedback [⟨"s", "dev", "OK", 0⟩] "s" "dev" "OK" 2 =
      ([⟨"s", "dev", "OK", 0⟩], [], .rateLimited)
    ∧ submit_feedback [⟨"s", "dev", "OK", 0⟩] "s" "dev" "OK" 5 =
      ([⟨"s", "dev", "OK", 0⟩, ⟨"s", "dev", "OK", 5⟩],
       [Effect.persist "feedback_event",
        Effect.broadcast (get_session_group_name "s" "teacher")
          (.feedback_message "OK" 5)],
       .ok) :=
  ⟨(C4_feedback_rate_limited [⟨"s", "dev", "OK", 0⟩] "s" "dev" "OK" 2
      (Or.inl rfl)).1 ⟨"s", "dev", "OK", 0⟩ rfl (by norm_num),
   (C4_feedback_rate_limited [⟨"s", "dev", "OK", 0⟩] "s" "dev" "OK" 5
      (Or.inl rfl)).2.1 ⟨"s", "dev", "OK", 0⟩ rfl (by norm_num)⟩

theorem task_auto_summary_eq (m : ImportantMoment) (llm : LlmOutcome) :
    task_auto_summary m llm =
      ai_summarize_important_image_for_task m.screenshot_image llm := by
  unfold task_auto_summary
  rcases m.screenshot_image with _ | s <;>
    simp [ai_summarize_important_image_for_task, optStrFalsy]

theorem task_final_note_eq (m : ImportantMoment) (raw : String)
    (llm : LlmOutcome) :
    task_final_note m raw llm =
      final_note_spec raw
        (ai_summarize_important_image_for_task m.screenshot_image llm) := by
  unfold task_final_note
  rw [task_auto_summary_eq]
  rcases ai_summarize_important_image_for_task m.screenshot_image llm
    with _ | v
  · simp [final_note_spec]
  · by_cases hraw : raw = ""
    · simp [final_note_spec, hraw]
    · simp [final_note_spec, hraw]

theorem task_note_characterization (m : ImportantMoment) (raw : String)
    (llm : LlmOutcome) :
    (generate_important_summary_task m raw llm).1.note =
        final_note_spec raw
          (ai_summarize_important_image_for_task m.screenshot_image llm)
    ∧ (generate_important_summary_task m raw llm).1.screenshot_image =
        m.screenshot_image
    ∧ (final_note_spec raw
        (ai_summarize_important_image_for_task m.screenshot_image llm) =
          m.note →
        generate_important_summary_task m raw llm = (m, []))
    ∧ (∀ e ∈ (generate_important_summary_task m raw llm).2,
        e.isBroadcast = false) := by
  by_cases hw : task_final_note m raw llm = m.note
  · have hwb : (task_final_note m raw llm != m.note) = false := by
      simp [hw]
    refine ⟨?_, ?_, ?_, ?_⟩
    · simp [generate_important_summary_task, hwb, ← task_final_note_eq, hw]
    · simp [generate_important_summary_task, hwb]
    · intro _
      simp [generate_important_summary_task, hwb]
    · simp [generate_important_summary_task, hwb]
  · have hwb : (task_final_note m raw llm != m.note) = true := by
      simp [hw]
    refine ⟨?_, ?_, ?_, ?_⟩
    · simp [generate_important_summary_task, hwb, ← task_final_note_eq]
    · simp [generate_important_summary_task, hwb]
    · intro hspec
      exact absurd (task_final_note_eq m raw llm ▸ hspec) hw
    · simp [generate_important_summary_task, hwb, Effect.isBroadcast]

/-- C5: the enrichment job's final note follows the spec rule (join when
raw note and summary are both non-empty, summary alone when the raw note
is empty, raw note when summarization is skipped, fails or returns
empty); it writes only when the final note differs from the stored note,
rerunning it is a no-op, and it never broadcasts. -/
theorem C5_enrichment_final_note :
    ∀ (m : ImportantMoment) (raw : String) (llm : LlmOutcome),
      ((generate_important_summary_task m raw llm).1.note =
         final_note_spec raw
           (ai_summarize_important_image_for_task m.screenshot_image llm))
      ∧ (∀ e ∈ (generate_important_summary_task m raw llm).2,
          e.isBroadcast = false)
      ∧ (final_note_spec raw
           (ai_summarize_important_image_for_task m.screenshot_image llm) =
             m.note →
          generate_important_summary_task m raw llm = (m, []))
      ∧ (generate_important_summary_task
           (generate_important_summary_task m raw llm).1 raw llm =
          ((generate_important_summary_task m raw llm).1, [])) := by
  intro m raw llm
  obtain ⟨hnote, himg, hnoop, hnob⟩ := task_note_characterization m raw llm
  obtain ⟨hnote2, himg2, hnoop2, hnob2⟩ :=
    task_note_characterization (generate_important_summary_task m raw llm).1
      raw llm
  refine ⟨hnote, hnob, hnoop, ?_⟩
  apply hnoop2
  rw [himg, hnote]

/-- Witness for C5: with raw note "중요" and a successful summary
"그래프 설명", the persisted note becomes the joined string; rerunning
the job on the enriched moment performs no write. -/
theorem C5_enrichment_final_note_witness :
    (generate_important_summary_task
        ⟨"s", "MANUAL", "중요", some "img.png", 0⟩ "중요"
        (Except.ok "그래프 설명")).1.note = "중요 | 그래프 설명"
    ∧ generate_important_summary_task
        ⟨"s", "MANUAL", "중요 | 그래프 설명", some "img.png", 0⟩ "중요"
        (Except.ok "그래프 설명") =
      (⟨"s", "MANUAL", "중요 | 그래프 설명", some "img.png", 0⟩, []) := by
  constructor
  · rw [(C5_enrichment_final_note
      ⟨"s", "MANUAL", "중요", some "img.png", 0⟩ "중요"
      (Except.ok "그래프 설명")).1]
    rfl
  · exact (C5_enrichment_final_note
      ⟨"s", "MANUAL", "중요 | 그래프 설명", some "img.png", 0⟩ "중요"
      (Except.ok "그래프 설명")).2.2.1 rfl

/-- C6: the device-identity check holds exactly for the text-submit and
AI-answer transitions (a mismatching device gets `forbidden` and the
record is unchanged), while forwarding ignores the device identifier
entirely and always succeeds. -/
theorem C6_device_identity_checks :
    (∀ (q : Question) (dev : String) (t : Option String) (llm : LlmOutcome),
       optStrFalsy t = false → q.device_hash ≠ dev →
       submit_question_text q dev t llm = (q, .forbidden))
    ∧ (∀ (q : Question) (dev : String) (o : Option String)
         (llm : LlmOutcome),
        q.device_hash ≠ dev →
        request_ai_answer q dev o llm = (q, .forbidden))
    ∧ (∀ (q : Question) (d1 d2 : String) (o cap : Option String)
         (now : Time),
        forward_question_to_professor q d1 o cap now =
          forward_question_to_professor q d2 o cap now)
    ∧ (∀ (q : Question) (dev : String) (o cap : Option String)
         (now : Time),
        (forward_question_to_professor q dev o cap now).2.2 = .ok
        ∧ (forward_question_to_professor q dev o cap now).1.status =
            .FORWARDED) := by
  refine ⟨?_, ?_, ?_, ?_⟩
  · intro q dev t llm ht hne
    simp [submit_question_text, ht, hne]
  · intro q dev o llm hne
    simp [request_ai_answer, hne]
  · intro q d1 d2 o cap now
    rfl
  · intro q dev o cap now
    exact ⟨rfl, rfl⟩

/-- Witness for C6: a concrete question owned by device "d"; device "e"
is rejected on text submission and answer request, while forwarding from
device "e" succeeds. -/
theorem C6_device_identity_checks_witness :
    submit_question_text ⟨1, "s", "d", "", "", "", false, .INTENT, 0, 0⟩
        "e" (some "hi") (Except.ok "hi") =
      (⟨1, "s", "d", "", "", "", false, .INTENT, 0, 0⟩, .forbidden)
    ∧ request_ai_answer ⟨1, "s", "d", "", "", "", false, .INTENT, 0, 0⟩
        "e" none (Except.ok "ans") =
      (⟨1, "s", "d", "", "", "", false, .INTENT, 0, 0⟩, .forbidden)
    ∧ (forward_question_to_professor
        ⟨1, "s", "d", "", "", "", false, .INTENT, 0, 0⟩ "e" none none 0).2.2 =
      .ok :=
  ⟨C6_device_identity_checks.1 ⟨1, "s", "d", "", "", "", false, .INTENT, 0, 0⟩
      "e" (some "hi") (Except.ok "hi") (by decide) (by decide),
   C6_device_identity_checks.2.1
      ⟨1, "s", "d", "", "", "", false, .INTENT, 0, 0⟩ "e" none
      (Except.ok "ans") (by decide),
   (C6_device_identity_checks.2.2.2
      ⟨1, "s", "d", "", "", "", false, .INTENT, 0, 0⟩ "e" none none 0).1⟩

/-- A concrete `AI_ANSWERED` question owned by device "d". -/
def qC1 : Question :=
  ⟨1, "s", "d", "q?", "c", "a", false, .AI_ANSWERED, 0, 0⟩

/-- C1 counterexample: resubmitting text to an `AI_ANSWERED` question from
the owning device is not rejected and not a no-op: it succeeds and moves
the status back to `TEXT_SUBMITTED`, a regression in the lifecycle
order. -/
theorem C1_lifecycle_counterexample :
    qC1.status = QuestionStatus.AI_ANSWERED
    ∧ (submit_question_text qC1 "d" (some "hi") (Except.ok "hi")).2 = .ok
    ∧ (submit_question_text qC1 "d" (some "hi") (Except.ok "hi")).1.status =
        QuestionStatus.TEXT_SUBMITTED
    ∧ statusRank (submit_question_text qC1 "d" (some "hi")
        (Except.ok "hi")).1.status < statusRank qC1.status := by
  refine ⟨rfl, rfl, rfl, ?_⟩
  decide

/-- C1 amended: each transition sets its target status unconditionally on
success — text submission always lands on `TEXT_SUBMITTED`, an answer
request on `AI_ANSWERED` (so both can regress an advanced question),
forward on `FORWARDED` (which never regresses); rejected requests leave
the record unchanged. -/
theorem C1_lifecycle_amended :
    ∀ (q : Question) (dev : String) (t o : Option String)
      (llm : LlmOutcome) (cap : Option String) (now : Time),
      ((submit_question_text q dev t llm).2 = .ok →
        (submit_question_text q dev t llm).1.status = .TEXT_SUBMITTED)
      ∧ ((submit_question_text q dev t llm).2 ≠ .ok →
          (submit_question_text q dev t llm).1 = q)
      ∧ ((request_ai_answer q dev o llm).2 = .ok →
          (request_ai_answer q dev o llm).1.status = .AI_ANSWERED)
      ∧ ((request_ai_answer q dev o llm).2 ≠ .ok →
          (request_ai_answer q dev o llm).1 = q)
      ∧ (forward_question_to_professor q dev o cap now).1.status = .FORWARDED
      ∧ statusRank q.status ≤
          statusRank (forward_question_to_professor q dev o cap now).1.status
      := by
  intro q dev t o llm cap now
  have hrank : ∀ s : QuestionStatus, statusRank s ≤ 3 := by
    intro s; cases s <;> decide
  refine ⟨?_, ?_, ?_, ?_, rfl, hrank q.status⟩
  · intro hok
    by_cases h1 : optStrFalsy t = true
    · simp [submit_question_text, h1] at hok
    · by_cases h2 : q.device_hash = dev
      · simp [submit_question_text, h1, h2]
      · simp [submit_question_text, h1, h2] at hok
  · intro hne
    by_cases h1 : optStrFalsy t = true
    · simp [submit_question_text, h1]
    · by_cases h2 : q.device_hash = dev
      · exact absurd (by simp [submit_question_text, h1, h2]) hne
      · simp [submit_question_text, h1, h2]
  · intro hok
    by_cases h2 : q.device_hash = dev
    · simp [request_ai_answer, h2]
    · simp [request_ai_answer, h2] at hok
  · intro hne
    by_cases h2 : q.device_hash = dev
    · exact absurd (by simp [request_ai_answer, h2]) hne
    · simp [request_ai_answer, h2]

/-- Witness for the amended C1 at concrete inputs: a successful resubmit
lands on `TEXT_SUBMITTED`; requests from the wrong device leave the
record unchanged; a successful answer request lands on `AI_ANSWERED`. -/
theorem C1_lifecycle_amended_witness :
    (submit_question_text qC1 "d" (some "hi") (Except.ok "hi")).1.status =
      QuestionStatus.TEXT_SUBMITTED
    ∧ (submit_question_text qC1 "e" (some "hi") (Except.ok "hi")).1 = qC1
    ∧ (request_ai_answer qC1 "d" none (Except.ok "a")).1.status =
        QuestionStatus.AI_ANSWERED
    ∧ (request_ai_answer qC1 "e" none (Except.ok "a")).1 = qC1 :=
  ⟨(C1_lifecycle_amended qC1 "d" (some "hi") none (Except.ok "hi") none 0).1
      rfl,
   (C1_lifecycle_amended qC1 "e" (some "hi") none (Except.ok "hi") none
      0).2.1 (by decide),
   (C1_lifecycle_amended qC1 "d" (some "hi") none (Except.ok "a") none
      0).2.2.1 rfl,
   (C1_lifecycle_amended qC1 "e" (some "hi") none (Except.ok "a") none
      0).2.2.2.1 (by decide)⟩

/-- A concrete question for the forward counterexample. -/
def qC7 : Question :=
  ⟨2, "s", "d", "why?", "why", "ans", false, .AI_ANSWERED, 0, 0⟩

/-- C7 counterexample: re-forwarding an already-forwarded question at a
later time does set the flag and re-broadcast, but the re-sent payload is
not the same broadcast: its timestamp field carries the new save time, so
the effect trace differs from the first forward's. -/
theorem C7_forward_counterexample :
    (forward_question_to_professor qC7 "d" none none
        0).1.forwarded_to_professor = true
    ∧ (forward_question_to_professor
        (forward_question_to_professor qC7 "d" none none 0).1 "d" none none
          5).2.1
      ≠ (forward_question_to_professor qC7 "d" none none 0).2.1 := by
  exact ⟨rfl, by decide⟩

/-- C7 amended: forwarding sets the flag and status and broadcasts a
`new_question` payload (question id, cleaned/override text, capture,
save timestamp) to both groups; re-forwarding an already-forwarded
question succeeds without error, leaves flag and status at their
forwarded values, and re-sends a broadcast with the same question id,
cleaned text and capture to both groups, carrying the new save time. -/
theorem C7_forward_amended :
    ∀ (q : Question) (dev dev2 : String) (o cap : Option String)
      (t1 t2 : Time),
      ((forward_question_to_professor q dev o cap
          t1).1.forwarded_to_professor = true)
      ∧ ((forward_question_to_professor q dev o cap t1).1.status =
          .FORWARDED)
      ∧ ((forward_question_to_professor q dev o cap t1).2.2 = .ok)
      ∧ ((forward_question_to_professor
            (forward_question_to_professor q dev o cap t1).1 dev2 none cap
            t2).1.forwarded_to_professor =
          (forward_question_to_professor q dev o cap
            t1).1.forwarded_to_professor)
      ∧ ((forward_question_to_professor
            (forward_question_to_professor q dev o cap t1).1 dev2 none cap
            t2).1.status =
          (forward_question_to_professor q dev o cap t1).1.status)
      ∧ ((forward_question_to_professor
            (forward_question_to_professor q dev o cap t1).1 dev2 none cap
            t2).2.2 = .ok)
      ∧ (∃ c : String,
          (forward_question_to_professor q dev none cap t1).2.1 =
            [Effect.persist "question",
             Effect.broadcast (get_session_group_name q.session_id "teacher")
               (.new_question q.id c cap t1),
             Effect.broadcast (get_session_group_name q.session_id "student")
               (.new_question q.id c cap t1)]
          ∧ (forward_question_to_professor
              (forward_question_to_professor q dev none cap t1).1 dev2 none
              cap t2).2.1 =
            [Effect.persist "question",
             Effect.broadcast (get_session_group_name q.session_id "teacher")
               (.new_question q.id c cap t2),
             Effect.broadcast (get_session_group_name q.session_id "student")
               (.new_question q.id c cap t2)]) := by
  intro q dev dev2 o cap t1 t2
  exact ⟨rfl, rfl, rfl, rfl, rfl, rfl,
    ⟨cleaned_for_answer_of q none, rfl, rfl⟩⟩

/-- C8 counterexample: a teacher attaching to a fresh session is added to
the presence store (the presence broadcast even reports online), yet the
teacher's own `connected` snapshot reports `teacher_online = false`
although querying the store at that point returns `true` — so the
snapshot is not computed from the store for every role. -/
theorem C8_presence_counterexample :
    (consumer_connect ⟨[], []⟩ true "s1" "teacher" "ch1" 0).2 =
      [ConnEffect.presenceBroadcast "session_s1_student" true 0,
       ConnEffect.connectedSnapshot "s1" "teacher" false]
    ∧ is_teacher_online (consumer_connect ⟨[], []⟩ true "s1" "teacher" "ch1"
        0).1 true "s1" = true := by
  exact ⟨by decide, by decide⟩

/-- C8 amended: every attaching connection joins its `(session, role)`
group; a teacher is added to the presence store and a presence broadcast
goes to the student group; but the `connected` snapshot reports the
store-computed teacher-online status only for student connections — a
teacher's own snapshot always reports `false`. -/
theorem C8_presence_amended :
    ∀ (st : HubState) (r : Bool) (sid ch : String) (now : Time),
      ((consumer_connect st r sid "student" ch now).1.groups =
        st.groups ++ [(get_session_group_name sid "student", ch)])
      ∧ ((consumer_connect st r sid "teacher" ch now).1.groups =
          st.groups ++ [(get_session_group_name sid "teacher", ch)])
      ∧ ((consumer_connect st true sid "teacher" ch now).1.presence =
          sadd st.presence (teacherPresenceKey sid) ch)
      ∧ ((consumer_connect st r sid "teacher" ch now).2 =
          [ConnEffect.presenceBroadcast ("session_" ++ sid ++ "_student")
            (is_teacher_online (consumer_connect st r sid "teacher" ch now).1
              r sid) now,
           ConnEffect.connectedSnapshot sid "teacher" false])
      ∧ ((consumer_connect st r sid "student" ch now).2 =
          [ConnEffect.connectedSnapshot sid "student"
            (is_teacher_online (consumer_connect st r sid "student" ch now).1
              r sid)]) := by
  intro st r sid ch now
  refine ⟨rfl, ?_, rfl, rfl, rfl⟩
  cases r <;> rfl

/-- C9: AI collaborator failures are never surfaced: the clean wrapper
falls back to the stripped original text, the answer wrapper to the fixed
generic apology message, the summarize wrapper to `none`; with a failing
collaborator the calling operations still complete successfully. -/
theorem C9_ai_failure_fallbacks :
    (∀ text : String,
      ai_clean_question text (Except.error ()) = pyStrip text)
    ∧ (∀ text : String,
        ai_answer_question text (Except.error ()) = aiAnswerFallbackMessage)
    ∧ (∀ img : Option String,
        ai_summarize_important_image_for_task img (Except.error ()) = none)
    ∧ (∀ (q : Question) (t : Option String),
        optStrFalsy t = false →
        (submit_question_text q q.device_hash t (Except.error ())).2 = .ok)
    ∧ (∀ (q : Question) (o : Option String),
        (request_ai_answer q q.device_hash o (Except.error ())).2 = .ok)
    ∧ (∀ (m : ImportantMoment) (raw : String),
        (generate_important_summary_task m raw (Except.error ())).1.note =
          raw) := by
  refine ⟨fun _ => rfl, fun _ => rfl, ?_, ?_, ?_, ?_⟩
  · intro img
    rcases img with _ | s <;>
      simp [ai_summarize_important_image_for_task, optStrFalsy]
  · intro q t ht
    simp [submit_question_text, ht]
  · intro q o
    simp [request_ai_answer]
  · intro m raw
    rw [(task_note_characterization m raw (Except.error ())).1]
    rcases m.screenshot_image with _ | s <;>
      simp [ai_summarize_important_image_for_task, optStrFalsy,
        final_note_spec]

/-- Witness for C9: with a failing collaborator, a concrete text
submission from the owning device still returns ok. -/
theorem C9_ai_failure_fallbacks_witness :
    (submit_question_text ⟨1, "s", "d", "", "", "", false, .INTENT, 0, 0⟩
        "d" (some "hi") (Except.error ())).2 = .ok :=
  C9_ai_failure_fallbacks.2.2.2.1
    ⟨1, "s", "d", "", "", "", false, .INTENT, 0, 0⟩ (some "hi") rfl

/-- C10: requests without a device-hash header all get the identifier
"anonymous", so header-less clients share one identity: a second
header-less like of the same question is a silent no-op, and two
header-less feedback submissions within 3 seconds rate-limit each
other. -/
theorem C10_anonymous_device_identity :
    (∀ h : Option String, (h = none ∨ h = some "") →
       get_device_hash h = "anonymous")
    ∧ (∀ (likes : LikeRows) (sid : String) (qid : Nat),
        like_question (like_question likes sid qid (get_device_hash none)).1
            sid qid (get_device_hash (some "")) =
          ((like_question likes sid qid (get_device_hash none)).1, []))
    ∧ (∀ (events : List FeedbackEvent) (sid ft ft2 : String) (t1 t2 : Time),
        (ft2 = "OK" ∨ ft2 = "HARD") →
        (submit_feedback events sid (get_device_hash none) ft t1).2.2 =
          .ok →
        t2 - t1 < 3 →
        (submit_feedback
            (submit_feedback events sid (get_device_hash none) ft t1).1 sid
            (get_device_hash (some "")) ft2 t2).2.2 = .rateLimited) := by
  refine ⟨?_, ?_, ?_⟩
  · intro h hh
    rcases hh with rfl | rfl <;> rfl
  · intro likes sid qid
    have hmem : (qid, "anonymous") ∈
        (like_question likes sid qid (get_device_hash none)).1 := by
      by_cases hc : (qid, "anonymous") ∈ likes
      · have hfst : (like_question likes sid qid (get_device_hash none)).1 =
            likes := by
          simp [like_question, get_device_hash, hc]
        rw [hfst]; exact hc
      · have hfst : (like_question likes sid qid (get_device_hash none)).1 =
            likes ++ [(qid, "anonymous")] := by
          simp [like_question, get_device_hash, hc]
        rw [hfst]; simp
    set l1 := (like_question likes sid qid (get_device_hash none)).1 with hl1
    simp [like_question, get_device_hash, hmem]
  · intro events sid ft ft2 t1 t2 hft2 hok hlt
    have hftb2 : (ft2 != "OK" && ft2 != "HARD") = false := by
      rcases hft2 with rfl | rfl <;> rfl
    have hstate := submit_feedback_ok_state events sid (get_device_hash none)
      ft t1 hok
    have hmem : (⟨sid, get_device_hash none, ft, t1⟩ : FeedbackEvent) ∈
        (submit_feedback events sid (get_device_hash none) ft t1).1 := by
      rw [hstate]; simp
    obtain ⟨last, hlast, hle⟩ := latestFeedback_ge sid
      (get_device_hash (some ""))
      (submit_feedback events sid (get_device_hash none) ft t1).1
      ⟨sid, get_device_hash none, ft, t1⟩ hmem rfl rfl
    have hlt2 : t2 - last.created_at < 3 :=
      lt_of_le_of_lt (sub_le_sub_left hle t2) hlt
    set l1 := (submit_feedback events sid (get_device_hash none) ft t1).1
      with hl1
    simp [submit_feedback, hftb2, hlast, hlt2]

/-- Witness for C10: header-less requests map to "anonymous"; a concrete
second header-less feedback submission 2 seconds after the first is
rate-limited. -/
theorem C10_anonymous_device_identity_witness :
    get_device_hash none = "anonymous"
    ∧ (submit_feedback (submit_feedback [] "s" (get_device_hash none) "OK"
          0).1 "s" (get_device_hash (some "")) "HARD" 2).2.2 =
        .rateLimited :=
  ⟨C10_anonymous_device_identity.1 none (Or.inl rfl),
   C10_anonymous_device_identity.2.2 [] "s" "OK" "HARD" 0 2 (Or.inr rfl)
     (by decide) (by norm_num)⟩

end Lecture
